import Mathlib

/-!
Verification of the Delta partition predicate engine
(`crates/core/src/kernel/schema/partitions.rs`).

The external collaborators (the delta-kernel scalar parser and the
`ScalarExt::serialize` text rendering) are modelled as abstract function
parameters: every theorem quantifies over them, so nothing is assumed
about their behaviour beyond what the source code observes.
-/

namespace DeltaRs

/-- Primitive schema types, mirroring `delta_kernel::schema::PrimitiveType`. -/
inductive PrimitiveType where
  | String
  | Long
  | Integer
  | Short
  | Byte
  | Float
  | Double
  | Boolean
  | Binary
  | Date
  | Timestamp
  | TimestampNtz
  | Decimal (precision : Nat) (scale : Nat)
deriving DecidableEq, Repr

mutual
/-- Schema data types: a primitive, or a complex (struct/array/map) type.
Mirrors `delta_kernel::schema::DataType`. -/
inductive DataType where
  | Primitive (p : PrimitiveType)
  | Struct (fields : List StructField)
  | Array (elementType : DataType) (containsNull : Bool)
  | Map (keyType : DataType) (valueType : DataType) (valueContainsNull : Bool)

/-- A named schema field. Mirrors `delta_kernel::schema::StructField`
(`name`, `data_type`, `nullable`). -/
inductive StructField where
  | mk (name : String) (dataType : DataType) (nullable : Bool)
end

/-- The field's name. -/
def StructField.name : StructField → String
  | .mk n _ _ => n

/-- The field's declared data type (`StructField::data_type`). -/
def StructField.dataType : StructField → DataType
  | .mk _ dt _ => dt

/-- Embeds `DataType::as_primitive_opt`: the primitive kind, when the type is primitive. -/
def DataType.asPrimitiveOpt : DataType → Option PrimitiveType
  | .Primitive p => some p
  | _ => none

/-- Model of an IEEE floating-point value for ordering purposes, as observed
by Rust's `PartialOrd for f32/f64`: `nan` is incomparable with everything
(itself included); all other values are linearly ordered as
`neginf < val q < posinf` (the two IEEE zeros compare equal, so a single
rational suffices for the finite values). -/
inductive FloatVal where
  | nan
  | neginf
  | val (q : ℚ)
  | posinf
deriving DecidableEq

/-- Whether the float is the NaN value. -/
def FloatVal.isNan : FloatVal → Bool
  | .nan => true
  | _ => false

/-- The scalar value domain, mirroring `delta_kernel::expressions::Scalar`
restricted to the primitive variants (complex scalars never appear as
partition values; the spec's data model lists exactly these variants).
`Decimal` carries the unscaled integer (`bits`), precision and scale;
`Null` carries the declared data type of the null. -/
inductive Scalar where
  | Integer (v : Int)
  | Long (v : Int)
  | Short (v : Int)
  | Byte (v : Int)
  | Float (v : FloatVal)
  | Double (v : FloatVal)
  | String (v : String)
  | Boolean (v : Bool)
  | Timestamp (v : Int)
  | TimestampNtz (v : Int)
  | Date (v : Int)
  | Binary (v : List Nat)
  | Decimal (bits : Int) (precision : Nat) (scale : Nat)
  | Null (dt : DataType)

/-- Embeds `Scalar::is_null`. -/
def Scalar.isNull : Scalar → Bool
  | .Null _ => true
  | _ => false

/-- Three-way comparison on integers (the total `Ord` of Rust's fixed-width
signed integers, widths being irrelevant to comparison). -/
def cmpInt (a b : Int) : Ordering :=
  if a < b then .lt else if a = b then .eq else .gt

/-- Three-way comparison on rationals. -/
def cmpRat (a b : ℚ) : Ordering :=
  if a < b then .lt else if a = b then .eq else .gt

/-- Three-way comparison on strings (Rust's `Ord for String` is
byte-lexicographic on UTF-8, which coincides with codepoint order). -/
def cmpStr (a b : String) : Ordering :=
  if a < b then .lt else if a = b then .eq else .gt

/-- Three-way comparison on booleans (`false < true`). -/
def cmpBool : Bool → Bool → Ordering
  | false, false => .eq
  | false, true => .lt
  | true, false => .gt
  | true, true => .eq

/-- Lexicographic comparison of byte strings (Rust's `Ord for Vec<u8>`). -/
def cmpBytes : List Nat → List Nat → Ordering
  | [], [] => .eq
  | [], _ :: _ => .lt
  | _ :: _, [] => .gt
  | a :: as, b :: bs =>
    match cmpInt a b with
    | .eq => cmpBytes as bs
    | o => o

/-- Rust's `PartialOrd::partial_cmp` on `f32`/`f64`: `None` whenever either
operand is NaN, otherwise the linear order on the float line. -/
def floatPartialCmp : FloatVal → FloatVal → Option Ordering
  | .nan, _ => none
  | _, .nan => none
  | .neginf, .neginf => some .eq
  | .neginf, _ => some .lt
  | _, .neginf => some .gt
  | .posinf, .posinf => some .eq
  | .posinf, _ => some .gt
  | _, .posinf => some .lt
  | .val a, .val b => some (cmpRat a b)

/-- Embeds `ScalarHelper::partial_cmp` from the source: the partial order on
scalars, with the arms in the source's order (null-null first, same-kind
typed comparisons, the decimal precision/scale guard, then the null
catch-alls, then incomparable). -/
def scalarPartialCmp : Scalar → Scalar → Option Ordering
  | .Null _, .Null _ => some .eq
  | .Integer a, .Integer b => some (cmpInt a b)
  | .Long a, .Long b => some (cmpInt a b)
  | .Short a, .Short b => some (cmpInt a b)
  | .Byte a, .Byte b => some (cmpInt a b)
  | .Float a, .Float b => floatPartialCmp a b
  | .Double a, .Double b => floatPartialCmp a b
  | .String a, .String b => some (cmpStr a b)
  | .Boolean a, .Boolean b => some (cmpBool a b)
  | .Timestamp a, .Timestamp b => some (cmpInt a b)
  | .TimestampNtz a, .TimestampNtz b => some (cmpInt a b)
  | .Date a, .Date b => some (cmpInt a b)
  | .Binary a, .Binary b => some (cmpBytes a b)
  | .Decimal b1 p1 s1, .Decimal b2 p2 s2 =>
    if p1 ≠ p2 ∨ s1 ≠ s2 then none else some (cmpInt b1 b2)
  | .Null _, _ => some .lt
  | _, .Null _ => some .gt
  | _, _ => none

/-- Embeds `PartitionValue`: the shape of a filter's operand(s), with raw-text
operands. -/
inductive PartitionValue where
  | Equal (v : String)
  | NotEqual (v : String)
  | GreaterThan (v : String)
  | GreaterThanOrEqual (v : String)
  | LessThan (v : String)
  | LessThanOrEqual (v : String)
  | In (vs : List String)
  | NotIn (vs : List String)
deriving DecidableEq, Repr

/-- Embeds `PartitionFilter`: a key together with an operand shape. -/
structure PartitionFilter where
  key : String
  value : PartitionValue
deriving DecidableEq, Repr

/-- Embeds `DeltaTablePartition`: one column's resolved scalar value for one
physical partition. -/
structure DeltaTablePartition where
  key : String
  value : Scalar

/-- Errors of this core. `Kernel` wraps an error bubbled up from the
external scalar parser (the `From<delta_kernel::Error>` conversion applied
by the `?` operator); parse errors are carried as their message text. -/
inductive DeltaTableError where
  | InvalidPartitionFilter (partition_filter : String)
  | PartitionError (partition : String)
  | SchemaMismatch (msg : String)
  | Kernel (e : String)
deriving DecidableEq, Repr

/-- The type of the abstract external scalar parser
(`PrimitiveType::parse_scalar`): raw text to a typed scalar or a parse
error. -/
abbrev ParseFn := PrimitiveType → String → Except String Scalar

/-- The type of the abstract external scalar text rendering
(`ScalarExt::serialize`). -/
abbrev SerializeFn := Scalar → String

/-- Embeds `Ordering::is_eq`. -/
def ordIsEq : Ordering → Bool
  | .eq => true
  | _ => false

/-- Embeds `Ordering::is_gt`. -/
def ordIsGt : Ordering → Bool
  | .gt => true
  | _ => false

/-- Embeds `Ordering::is_ge`. -/
def ordIsGe : Ordering → Bool
  | .lt => false
  | _ => true

/-- Embeds `Ordering::is_lt`. -/
def ordIsLt : Ordering → Bool
  | .lt => true
  | _ => false

/-- Embeds `Ordering::is_le`. -/
def ordIsLe : Ordering → Bool
  | .gt => false
  | _ => true

/-- Embeds `compare_typed_value`: parse the filter operand at the declared
primitive type (failure is swallowed by `.ok()?` into `none`) and apply the
scalar partial order; complex types yield `none`. -/
def compareTypedValue (parse : ParseFn) (partition_value : Scalar)
    (filter_value : String) (data_type : DataType) : Option Ordering :=
  match data_type with
  | .Primitive primitive_type =>
    match (parse primitive_type filter_value).toOption with
    | none => none
    | some other => scalarPartialCmp partition_value other
  | _ => none

/-- Embeds `PartitionFilter::match_partition`: key check, the `Equal("")`
null-partition special case, then dispatch on the operand shape exactly as
the source does (timestamp equality via the typed comparator, every other
equality via serialized text; ordering operators via the typed comparator
with `unwrap_or(false)`; `In`/`NotIn` via list membership of the serialized
text). -/
def matchPartition (parse : ParseFn) (serialize : SerializeFn)
    (self : PartitionFilter) (partition : DeltaTablePartition)
    (data_type : DataType) : Bool :=
  if self.key ≠ partition.key then false
  else if self.value = PartitionValue.Equal "" then partition.value.isNull
  else
    match self.value with
    | .Equal value =>
      match data_type with
      | .Primitive .Timestamp =>
        ((compareTypedValue parse partition.value value data_type).map ordIsEq).getD false
      | _ => serialize partition.value == value
    | .NotEqual value =>
      match data_type with
      | .Primitive .Timestamp =>
        ((compareTypedValue parse partition.value value data_type).map
          (fun x => !ordIsEq x)).getD false
      | _ => !(serialize partition.value == value)
    | .GreaterThan value =>
      ((compareTypedValue parse partition.value value data_type).map ordIsGt).getD false
    | .GreaterThanOrEqual value =>
      ((compareTypedValue parse partition.value value data_type).map ordIsGe).getD false
    | .LessThan value =>
      ((compareTypedValue parse partition.value value data_type).map ordIsLt).getD false
    | .LessThanOrEqual value =>
      ((compareTypedValue parse partition.value value data_type).map ordIsLe).getD false
    | .In value => value.contains (serialize partition.value)
    | .NotIn value => !(value.contains (serialize partition.value))

/-- Embeds `PartitionFilter::match_partitions`: looks the filter's key up in the
per-column type map and tests whether any partition matches. The source
calls `.unwrap()` on the lookup, which panics when the key is absent; the
panic is modelled as `none` (no boolean is produced). -/
def matchPartitions (parse : ParseFn) (serialize : SerializeFn)
    (self : PartitionFilter) (partitions : List DeltaTablePartition)
    (partition_col_data_types : List (String × DataType)) : Option Bool :=
  match partition_col_data_types.lookup self.key with
  | none => none
  | some data_type =>
    some (partitions.any (fun partition =>
      matchPartition parse serialize self partition data_type))

/-- Each operand single-quoted and joined with `", "` (the body of the
`In`/`NotIn` renderings). -/
def quotedJoin (values : List String) : String :=
  String.intercalate ", " (values.map (fun v => "'" ++ v ++ "'"))

/-- Embeds `Serialize for PartitionFilter`: the canonical SQL-like rendering, with
the operand single-quoted and no escaping. -/
def serializeFilter (self : PartitionFilter) : String :=
  match self.value with
  | .Equal value => self.key ++ " = '" ++ value ++ "'"
  | .NotEqual value => self.key ++ " != '" ++ value ++ "'"
  | .GreaterThan value => self.key ++ " > '" ++ value ++ "'"
  | .GreaterThanOrEqual value => self.key ++ " >= '" ++ value ++ "'"
  | .LessThan value => self.key ++ " < '" ++ value ++ "'"
  | .LessThanOrEqual value => self.key ++ " <= '" ++ value ++ "'"
  | .In values => self.key ++ " IN (" ++ quotedJoin values ++ ")"
  | .NotIn values => self.key ++ " NOT IN (" ++ quotedJoin values ++ ")"

/-- Rust `Debug` rendering of a string: double-quoted, with `\` and `"`
escaped (the control-character escapes of `Debug` are elided, as no claim
depends on them). -/
def rustDebugStr (s : String) : String :=
  "\"" ++ String.join (s.data.map (fun c =>
    if c = '\\' then "\\\\" else if c = '"' then "\\\"" else String.singleton c)) ++ "\""

/-- Rust `Debug` rendering of a `(&str, &str, &str)` triple, as produced by
`format!("{filter:?}")` in the `InvalidPartitionFilter` arm. -/
def rustDebugTriple : String × String × String → String
  | (k, op, v) => "(" ++ rustDebugStr k ++ ", " ++ rustDebugStr op ++ ", " ++ rustDebugStr v ++ ")"

/-- Rust `Debug` rendering of a `(&str, &str, &[&str])` triple. -/
def rustDebugListTriple : String × String × List String → String
  | (k, op, vs) =>
    "(" ++ rustDebugStr k ++ ", " ++ rustDebugStr op ++ ", [" ++
      String.intercalate ", " (vs.map rustDebugStr) ++ "])"

/-- Embeds `TryFrom<(&str, &str, &str)> for PartitionFilter`: every source arm
carries the same `if !key.is_empty()` guard, so the guard is hoisted; a
failed guard and an unrecognized operator both fall through to the
`InvalidPartitionFilter` catch-all, which carries the `Debug`-formatted
input triple. -/
def tryFromTriple (filter : String × String × String) : Except DeltaTableError PartitionFilter :=
  let (key, op, value) := filter
  if key ≠ "" then
    if op = "=" then .ok ⟨key, .Equal value⟩
    else if op = "!=" then .ok ⟨key, .NotEqual value⟩
    else if op = ">" then .ok ⟨key, .GreaterThan value⟩
    else if op = ">=" then .ok ⟨key, .GreaterThanOrEqual value⟩
    else if op = "<" then .ok ⟨key, .LessThan value⟩
    else if op = "<=" then .ok ⟨key, .LessThanOrEqual value⟩
    else .error (.InvalidPartitionFilter (rustDebugTriple filter))
  else .error (.InvalidPartitionFilter (rustDebugTriple filter))

/-- Embeds `TryFrom<(&str, &str, &[&str])> for PartitionFilter`: the list-operand
form, recognizing exactly `"in"` and `"not in"`. -/
def tryFromListTriple (filter : String × String × List String) :
    Except DeltaTableError PartitionFilter :=
  let (key, op, value) := filter
  if key ≠ "" then
    if op = "in" then .ok ⟨key, .In value⟩
    else if op = "not in" then .ok ⟨key, .NotIn value⟩
    else .error (.InvalidPartitionFilter (rustDebugListTriple filter))
  else .error (.InvalidPartitionFilter (rustDebugListTriple filter))

/-- Rust's `str::split(char)` on a character list: every occurrence of the
separator starts a new (possibly empty) part; the empty input yields one
empty part. -/
def splitOnChar (c : Char) : List Char → List (List Char)
  | [] => [[]]
  | x :: xs =>
    if x = c then [] :: splitOnChar c xs
    else
      match splitOnChar c xs with
      | [] => [[x]]
      | y :: ys => (x :: y) :: ys

/-- Embeds `partition.split('=')` as used by the Hive-segment parser. -/
def splitEq (s : String) : List String :=
  (splitOnChar '=' s.data).map String.mk

/-- Embeds `TryFrom<&str> for DeltaTablePartition`: split the Hive path segment on
`'='`; exactly two parts produce `{ key := part 0, value := String part 1 }`,
anything else is a `PartitionError` carrying the segment. -/
def tryFromHivePartition (partition : String) : Except DeltaTableError DeltaTablePartition :=
  match splitEq partition with
  | [k, v] => .ok ⟨k, Scalar.String v⟩
  | _ => .error (.PartitionError partition)

/-- AND/OR junction kinds (`delta_kernel::expressions::JunctionPredicateOp`). -/
inductive JunctionPredicateOp where
  | And
  | Or
deriving DecidableEq, Repr

/-- The kernel predicate tree, as built (never evaluated) by this core:
leaf comparisons of a column reference (a name path; here always a single
root-level name) against a literal scalar, and N-ary AND/OR junctions. -/
inductive Predicate where
  | eq (column : List String) (v : Scalar)
  | ne (column : List String) (v : Scalar)
  | lt (column : List String) (v : Scalar)
  | le (column : List String) (v : Scalar)
  | gt (column : List String) (v : Scalar)
  | ge (column : List String) (v : Scalar)
  | junction (op : JunctionPredicateOp) (preds : List Predicate)

/-- Embeds `StructType::field`: resolve a name against the schema's root-level
fields (a `StructType` is modelled by its ordered field list). -/
def findField (table_schema : List StructField) (name : String) : Option StructField :=
  table_schema.find? (fun f => f.name == name)

/-- Embeds `filter_to_kernel_predicate`: resolve the filter's key against the
schema (else `SchemaMismatch`), require a primitive type (else
`SchemaMismatch`), then build the leaf or junction, parsing each raw operand
at the field's primitive type; parse errors propagate (wrapped into the
`Kernel` error by the `?`-conversion). -/
def filterToKernelPredicate (parse : ParseFn) (filter : PartitionFilter)
    (table_schema : List StructField) : Except DeltaTableError Predicate :=
  match findField table_schema filter.key with
  | none =>
    .error (.SchemaMismatch ("Field '" ++ filter.key ++ "' is not a root table field."))
  | some field =>
    match field.dataType.asPrimitiveOpt with
    | none =>
      .error (.SchemaMismatch ("Field '" ++ field.name ++ "' is not a primitive type"))
    | some dt =>
      let column := [field.name]
      match filter.value with
      | .Equal raw => (parse dt raw).map (Predicate.eq column) |>.mapError .Kernel
      | .NotEqual raw => (parse dt raw).map (Predicate.ne column) |>.mapError .Kernel
      | .LessThan raw => (parse dt raw).map (Predicate.lt column) |>.mapError .Kernel
      | .LessThanOrEqual raw => (parse dt raw).map (Predicate.le column) |>.mapError .Kernel
      | .GreaterThan raw => (parse dt raw).map (Predicate.gt column) |>.mapError .Kernel
      | .GreaterThanOrEqual raw => (parse dt raw).map (Predicate.ge column) |>.mapError .Kernel
      | .In raw_values =>
        ((raw_values.mapM (parse dt)).mapError DeltaTableError.Kernel).map
          (fun values => Predicate.junction .Or (values.map (Predicate.eq column)))
      | .NotIn raw_values =>
        ((raw_values.mapM (parse dt)).mapError DeltaTableError.Kernel).map
          (fun values => Predicate.junction .And (values.map (Predicate.ne column)))

/-- Embeds `to_kernel_predicate`: compile each filter and AND the results. -/
def toKernelPredicate (parse : ParseFn) (filters : List PartitionFilter)
    (table_schema : List StructField) : Except DeltaTableError Predicate :=
  (filters.mapM (fun filter => filterToKernelPredicate parse filter table_schema)).map
    (Predicate.junction .And)

/-! ### Spec-side reference definitions (for the refinement claim about the
scalar partial order). These follow the specification's words, not the
source's pattern-match, and are compared with `scalarPartialCmp` below. -/

/-- The strict order on non-NaN float values: `neginf` below every finite
value, every finite value below `posinf`, finite values ordered as
rationals. (`nan` is below nothing and above nothing.) -/
def floatLt : FloatVal → FloatVal → Bool
  | .neginf, .val _ => true
  | .neginf, .posinf => true
  | .val _, .posinf => true
  | .val a, .val b => a < b
  | _, _ => false

/-- Reference definition following the spec's words (§4.1), amended for IEEE NaN: the float kind's
order is total on non-NaN values; a NaN operand makes the pair
incomparable. -/
def specFloatCmp (a b : FloatVal) : Option Ordering :=
  if a.isNan || b.isNan then none
  else if floatLt a b then some .lt
  else if floatLt b a then some .gt
  else some .eq

/-- The kind tag of a scalar, for the spec's "same-kind"/"mismatched-kind"
distinction. -/
def Scalar.kindTag : Scalar → Nat
  | .Integer _ => 0
  | .Long _ => 1
  | .Short _ => 2
  | .Byte _ => 3
  | .Float _ => 4
  | .Double _ => 5
  | .String _ => 6
  | .Boolean _ => 7
  | .Timestamp _ => 8
  | .TimestampNtz _ => 9
  | .Date _ => 10
  | .Binary _ => 11
  | .Decimal _ _ _ => 12
  | .Null _ => 13

/-- The natural comparison of two same-kind non-null, non-decimal scalars,
per the spec's §4.1 first rule (amended: for the float/double kinds, NaN
makes the pair incomparable; all other listed kinds are totally ordered). -/
def specSameKindCmp : Scalar → Scalar → Option Ordering
  | .Integer a, .Integer b => some (cmpInt a b)
  | .Long a, .Long b => some (cmpInt a b)
  | .Short a, .Short b => some (cmpInt a b)
  | .Byte a, .Byte b => some (cmpInt a b)
  | .Float a, .Float b => specFloatCmp a b
  | .Double a, .Double b => specFloatCmp a b
  | .String a, .String b => some (cmpStr a b)
  | .Boolean a, .Boolean b => some (cmpBool a b)
  | .Timestamp a, .Timestamp b => some (cmpInt a b)
  | .TimestampNtz a, .TimestampNtz b => some (cmpInt a b)
  | .Date a, .Date b => some (cmpInt a b)
  | .Binary a, .Binary b => some (cmpBytes a b)
  | _, _ => none

/-- Reference definition following the spec's words (§4.1), rule by rule: null-null equal, null
below non-null, non-null above null; two decimals compare by unscaled
integer exactly when precision and scale agree; same-kind non-decimal pairs
by the kind's natural order (amended: NaN floats are incomparable); every
other pair incomparable. -/
def specScalarPartialCmp (a b : Scalar) : Option Ordering :=
  match a, b with
  | .Null _, .Null _ => some .eq
  | .Null _, _ => some .lt
  | _, .Null _ => some .gt
  | .Decimal b1 p1 s1, .Decimal b2 p2 s2 =>
    if p1 = p2 ∧ s1 = s2 then some (cmpInt b1 b2) else none
  | x, y => specSameKindCmp x y

/-! ### Theorems -/

/-- The source's float comparison (Rust `partial_cmp` on `f32`/`f64`)
agrees with the spec-side float rule amended for NaN. -/
theorem floatPartialCmp_eq_spec (a b : FloatVal) : floatPartialCmp a b = specFloatCmp a b := by
  cases a <;> cases b <;>
    first
      | rfl
      | (rename_i x y
         show some (cmpRat x y) = specFloatCmp (FloatVal.val x) (FloatVal.val y)
         rcases lt_trichotomy x y with h | h | h
         · simp [specFloatCmp, FloatVal.isNan, floatLt, cmpRat, h]
         · simp [specFloatCmp, FloatVal.isNan, floatLt, cmpRat, h]
         · simp [specFloatCmp, FloatVal.isNan, floatLt, cmpRat, h, not_lt_of_gt h,
             ne_of_gt h])

/-- C2 counterexample: the claim asserts that every same-kind numeric pair
of scalars is comparable ("never incomparable"), but the source's
`ScalarHelper::partial_cmp` on two `Float` NaN values returns `None`
(Rust's `f32::partial_cmp` is `None` whenever an operand is NaN). -/
theorem c2_counterexample_nan_incomparable :
    scalarPartialCmp (Scalar.Float FloatVal.nan) (Scalar.Float FloatVal.nan) = none := rfl

/-- C2 (amended): the scalar partial order equals the spec's reference
definition, amended only where the counterexample forces it: for the
float/double kinds a NaN operand makes the pair incomparable, and the
kind's natural total order applies to the non-NaN values; all other rules
(null ordering, decimal precision/scale guard, same-kind natural orders,
mismatched kinds incomparable) hold exactly as the claim states them. -/
theorem c2_scalar_order_reference :
    ∀ a b : Scalar, scalarPartialCmp a b = specScalarPartialCmp a b := by
  intro a b
  cases a <;> cases b <;>
    first
      | rfl
      | exact floatPartialCmp_eq_spec _ _
      | (rename_i b1 p1 s1 b2 p2 s2
         show (if p1 ≠ p2 ∨ s1 ≠ s2 then none else some (cmpInt b1 b2)) =
           (if p1 = p2 ∧ s1 = s2 then some (cmpInt b1 b2) else none)
         by_cases h1 : p1 = p2 <;> by_cases h2 : s1 = s2 <;> simp [h1, h2])

/-- C3: a filter `Equal("")` with matching key is the null-partition test:
it matches exactly when the partition's scalar is the `Null` variant,
whatever the declared column type (and whatever the parser and the
serializer do). -/
theorem c3_empty_equal_matches_null (parse : ParseFn) (serialize : SerializeFn)
    (key : String) (pv : Scalar) (dt : DataType) :
    matchPartition parse serialize ⟨key, .Equal ""⟩ ⟨key, pv⟩ dt = pv.isNull := by
  simp [matchPartition]

/-- C10: with matching key, `In []` never matches and `NotIn []` always
matches, independently of the partition's scalar, the declared type, the
parser and the serializer. -/
theorem c10_empty_in_notin (parse : ParseFn) (serialize : SerializeFn)
    (key : String) (pv : Scalar) (dt : DataType) :
    matchPartition parse serialize ⟨key, .In []⟩ ⟨key, pv⟩ dt = false ∧
      matchPartition parse serialize ⟨key, .NotIn []⟩ ⟨key, pv⟩ dt = true := by
  constructor <;> simp [matchPartition]

/-- A concrete parser instance used by witnesses: timestamps parse from
decimal text, everything else parses as a `String` scalar. -/
def parseW : ParseFn := fun pt s =>
  match pt with
  | .Timestamp => if s = "5" then .ok (.Timestamp 5) else .error "invalid timestamp"
  | _ => .ok (.String s)

/-- A concrete parser instance used by witnesses: always fails. -/
def parseFail : ParseFn := fun _ _ => .error "boom"

/-- A concrete serializer instance used by witnesses. -/
def serializeW : SerializeFn := fun s =>
  match s with
  | .String v => v
  | .Integer n => toString n
  | _ => ""

/-- C1: for `Equal(v)`/`NotEqual(v)` with `v` non-empty and matching key,
the zoned `Timestamp` column type decides by parsing `v` at `Timestamp` and
testing the scalar partial order for (in)equality, while every other
declared type — any other primitive, or a complex type — decides by
comparing the serialized text of the partition's scalar against `v`
directly. -/
theorem c1_equality_timestamp_special_case (parse : ParseFn) (serialize : SerializeFn)
    (key v : String) (pv : Scalar) (hv : v ≠ "") :
    (matchPartition parse serialize ⟨key, .Equal v⟩ ⟨key, pv⟩ (.Primitive .Timestamp) =
      (((parse .Timestamp v).toOption.bind (scalarPartialCmp pv)) == some Ordering.eq)) ∧
    (matchPartition parse serialize ⟨key, .NotEqual v⟩ ⟨key, pv⟩ (.Primitive .Timestamp) =
      (((parse .Timestamp v).toOption.bind (scalarPartialCmp pv)).isSome &&
        !(((parse .Timestamp v).toOption.bind (scalarPartialCmp pv)) == some Ordering.eq))) ∧
    (∀ dt : DataType, dt ≠ .Primitive .Timestamp →
      matchPartition parse serialize ⟨key, .Equal v⟩ ⟨key, pv⟩ dt =
        (serialize pv == v) ∧
      matchPartition parse serialize ⟨key, .NotEqual v⟩ ⟨key, pv⟩ dt =
        !(serialize pv == v)) := by
  refine ⟨?_, ?_, ?_⟩
  · simp only [matchPartition, compareTypedValue, hv]
    cases hp : (parse .Timestamp v).toOption with
    | none => simp [hv, hp]
    | some s =>
      cases hc : scalarPartialCmp pv s with
      | none => simp [hv, hp, hc]
      | some o => cases o <;> simp [hv, hp, hc, ordIsEq] <;> rfl
  · simp only [matchPartition, compareTypedValue, hv]
    cases hp : (parse .Timestamp v).toOption with
    | none => simp [hv, hp]
    | some s =>
      cases hc : scalarPartialCmp pv s with
      | none => simp [hv, hp, hc]
      | some o => cases o <;> simp [hv, hp, hc, ordIsEq] <;> rfl
  · intro dt hdt
    cases dt with
    | Primitive p =>
      cases p <;> first
        | exact absurd rfl hdt
        | exact ⟨by simp [matchPartition, hv], by simp [matchPartition, hv]⟩
    | Struct fields => exact ⟨by simp [matchPartition, hv], by simp [matchPartition, hv]⟩
    | Array a c => exact ⟨by simp [matchPartition, hv], by simp [matchPartition, hv]⟩
    | Map a b c => exact ⟨by simp [matchPartition, hv], by simp [matchPartition, hv]⟩

/-- C1 witness: the theorem applied at a timestamp column (typed-compare
path) and at a string column (serialized-text path), with the definitions
evaluated. -/
theorem c1_witness :
    matchPartition parseW serializeW ⟨"k", .Equal "5"⟩ ⟨"k", .Timestamp 5⟩
      (.Primitive .Timestamp) = true ∧
    matchPartition parseW serializeW ⟨"k", .Equal "5"⟩ ⟨"k", .String "5"⟩
      (.Primitive .String) = true := by
  have h := c1_equality_timestamp_special_case parseW serializeW "k" "5"
    (Scalar.Timestamp 5) (by decide)
  have h' := c1_equality_timestamp_special_case parseW serializeW "k" "5"
    (Scalar.String "5") (by decide)
  constructor
  · rw [h.1]; decide
  · rw [(h'.2.2 (.Primitive .String) (by simp)).1]; decide

/-- C4: parse failure is handled asymmetrically. In the local matcher a
`none` typed comparison — which arises from a parse failure, an
incomparable pair, or a non-primitive declared type — makes every ordering
filter return `false` (never an error, never `true`); in the predicate
compiler the same parse failure propagates as the parser's error and no
predicate is produced. -/
theorem c4_parse_failure_asymmetry :
    (∀ (parse : ParseFn) (serialize : SerializeFn) (key v : String) (pv : Scalar)
      (dt : DataType), compareTypedValue parse pv v dt = none →
        matchPartition parse serialize ⟨key, .GreaterThan v⟩ ⟨key, pv⟩ dt = false ∧
        matchPartition parse serialize ⟨key, .GreaterThanOrEqual v⟩ ⟨key, pv⟩ dt = false ∧
        matchPartition parse serialize ⟨key, .LessThan v⟩ ⟨key, pv⟩ dt = false ∧
        matchPartition parse serialize ⟨key, .LessThanOrEqual v⟩ ⟨key, pv⟩ dt = false) ∧
    (∀ (parse : ParseFn) (pv : Scalar) (v : String) (pt : PrimitiveType),
      (parse pt v).toOption = none →
        compareTypedValue parse pv v (.Primitive pt) = none) ∧
    (∀ (parse : ParseFn) (pv : Scalar) (v : String) (pt : PrimitiveType) (s : Scalar),
      parse pt v = .ok s → scalarPartialCmp pv s = none →
        compareTypedValue parse pv v (.Primitive pt) = none) ∧
    (∀ (parse : ParseFn) (pv : Scalar) (v : String) (dt : DataType),
      dt.asPrimitiveOpt = none → compareTypedValue parse pv v dt = none) ∧
    (∀ (parse : ParseFn) (key raw : String) (schema : List StructField)
      (fld : StructField) (pt : PrimitiveType) (e : String),
      findField schema key = some fld → fld.dataType.asPrimitiveOpt = some pt →
      parse pt raw = .error e →
        filterToKernelPredicate parse ⟨key, .GreaterThan raw⟩ schema = .error (.Kernel e) ∧
        filterToKernelPredicate parse ⟨key, .GreaterThanOrEqual raw⟩ schema =
          .error (.Kernel e) ∧
        filterToKernelPredicate parse ⟨key, .LessThan raw⟩ schema = .error (.Kernel e) ∧
        filterToKernelPredicate parse ⟨key, .LessThanOrEqual raw⟩ schema =
          .error (.Kernel e)) := by
  refine ⟨?_, ?_, ?_, ?_, ?_⟩
  · intro parse serialize key v pv dt h
    refine ⟨?_, ?_, ?_, ?_⟩ <;> simp [matchPartition, h]
  · intro parse pv v pt h
    simp [compareTypedValue, h]
  · intro parse pv v pt s h1 h2
    simp [compareTypedValue, h1, h2, Except.toOption]
  · intro parse pv v dt h
    cases dt with
    | Primitive p => simp [DataType.asPrimitiveOpt] at h
    | Struct fields => rfl
    | Array a c => rfl
    | Map a b c => rfl
  · intro parse key raw schema fld pt e h1 h2 h3
    refine ⟨?_, ?_, ?_, ?_⟩ <;>
      simp [filterToKernelPredicate, h1, h2, h3, Except.map, Except.mapError]

/-- C4 witness: the theorem applied with an always-failing parser: the
local matcher returns `false`, the compiler returns the wrapped parser
error. -/
theorem c4_witness :
    matchPartition parseFail serializeW ⟨"k", .GreaterThan "1"⟩ ⟨"k", .Integer 0⟩
      (.Primitive .Integer) = false ∧
    filterToKernelPredicate parseFail ⟨"k", .GreaterThan "1"⟩
      [.mk "k" (.Primitive .Integer) true] = .error (.Kernel "boom") := by
  have hmain := c4_parse_failure_asymmetry
  have hcmp := hmain.2.1 parseFail (Scalar.Integer 0) "1" .Integer (by rfl)
  have h1 := hmain.1 parseFail serializeW "k" "1" (Scalar.Integer 0)
    (.Primitive .Integer) hcmp
  have h5 := hmain.2.2.2.2 parseFail "k" "1" [StructField.mk "k" (.Primitive .Integer) true]
    (StructField.mk "k" (.Primitive .Integer) true) .Integer "boom"
    (by rfl) (by rfl) (by rfl)
  exact ⟨h1.1, h5.1⟩

/-- C5 counterexample: the claim asserts `match_partitions` terminates with
a boolean even when the type map lacks the filter's key, but the source
calls `.unwrap()` on the failed lookup, which panics; on an empty map no
boolean is produced. -/
theorem c5_counterexample_missing_key :
    matchPartitions parseW serializeW ⟨"k", .Equal "v"⟩ [] [] = none := rfl

/-- C5 (amended): whenever the type map does contain an entry for the
filter's key, `match_partitions` terminates with the boolean "some
partition in the list matches"; when the entry is absent, the `unwrap` on
the failed lookup is a panic (a non-recoverable lookup failure, per the
spec's §4.4), not a boolean. -/
theorem c5_match_partitions_lookup (parse : ParseFn) (serialize : SerializeFn)
    (f : PartitionFilter) (partitions : List DeltaTablePartition)
    (m : List (String × DataType)) (dt : DataType)
    (h : m.lookup f.key = some dt) :
    matchPartitions parse serialize f partitions m =
      some (partitions.any (fun p => matchPartition parse serialize f p dt)) := by
  simp [matchPartitions, h]

/-- C5 witness: the amended theorem applied at a one-entry map, with the
match evaluated. -/
theorem c5_witness :
    matchPartitions parseW serializeW ⟨"year", .Equal "2021"⟩
      [⟨"year", .String "2021"⟩] [("year", DataType.Primitive .String)] = some true := by
  have h := c5_match_partitions_lookup parseW serializeW ⟨"year", .Equal "2021"⟩
    [⟨"year", Scalar.String "2021"⟩] [("year", DataType.Primitive .String)]
    (DataType.Primitive .String) (by rfl)
  rw [h]
  decide

/-- C6: over a primitive schema field, `In(list)` compiles to an
OR-junction of one equality leaf per successfully parsed element, in input
order; `NotIn(list)` to an AND-junction of inequality leaves; the empty
list compiles successfully to a junction over zero sub-predicates. -/
theorem c6_in_notin_junctions (parse : ParseFn) (key : String) (raws : List String)
    (schema : List StructField) (fld : StructField) (pt : PrimitiveType)
    (values : List Scalar)
    (h1 : findField schema key = some fld)
    (h2 : fld.dataType.asPrimitiveOpt = some pt)
    (h3 : raws.mapM (parse pt) = .ok values) :
    filterToKernelPredicate parse ⟨key, .In raws⟩ schema =
      .ok (.junction .Or (values.map (Predicate.eq [fld.name]))) ∧
    filterToKernelPredicate parse ⟨key, .NotIn raws⟩ schema =
      .ok (.junction .And (values.map (Predicate.ne [fld.name]))) ∧
    filterToKernelPredicate parse ⟨key, .In []⟩ schema =
      .ok (.junction .Or []) ∧
    filterToKernelPredicate parse ⟨key, .NotIn []⟩ schema =
      .ok (.junction .And []) := by
  have hloop : List.mapM.loop (parse pt) raws [] = Except.ok values := h3
  have hnil : List.mapM.loop (parse pt) ([] : List String) [] =
    Except.ok ([] : List Scalar) := rfl
  refine ⟨?_, ?_, ?_, ?_⟩ <;>
    simp [filterToKernelPredicate, h1, h2, hloop, hnil, Except.map, Except.mapError]

/-- C6 witness: the theorem applied at a two-element and the empty list,
with parsing evaluated. -/
theorem c6_witness :
    filterToKernelPredicate parseW ⟨"category", .In ["books", "electronics"]⟩
      [.mk "category" (.Primitive .String) true] =
      .ok (.junction .Or [.eq ["category"] (.String "books"),
        .eq ["category"] (.String "electronics")]) ∧
    filterToKernelPredicate parseW ⟨"category", .In []⟩
      [.mk "category" (.Primitive .String) true] = .ok (.junction .Or []) := by
  have h := c6_in_notin_junctions parseW "category" ["books", "electronics"]
    [StructField.mk "category" (.Primitive .String) true]
    (StructField.mk "category" (.Primitive .String) true) .String
    [Scalar.String "books", Scalar.String "electronics"] (by rfl) (by rfl) (by rfl)
  exact ⟨h.1, h.2.2.1⟩

/-- C7: compilation fails with a `SchemaMismatch` naming the field exactly
when the filter's key is not a root-level schema field or the resolved
field's type is not primitive; in every other case the result is either a
predicate or a (distinct) wrapped parser error, never a `SchemaMismatch`. -/
theorem c7_schema_mismatch_iff (parse : ParseFn) (f : PartitionFilter)
    (schema : List StructField) :
    (findField schema f.key = none →
      filterToKernelPredicate parse f schema =
        .error (.SchemaMismatch ("Field '" ++ f.key ++ "' is not a root table field."))) ∧
    (∀ fld, findField schema f.key = some fld → fld.dataType.asPrimitiveOpt = none →
      filterToKernelPredicate parse f schema =
        .error (.SchemaMismatch ("Field '" ++ fld.name ++ "' is not a primitive type"))) ∧
    (∀ msg, filterToKernelPredicate parse f schema = .error (.SchemaMismatch msg) →
      findField schema f.key = none ∨
        ∃ fld, findField schema f.key = some fld ∧ fld.dataType.asPrimitiveOpt = none) := by
  refine ⟨?_, ?_, ?_⟩
  · intro h
    simp [filterToKernelPredicate, h]
  · intro fld h1 h2
    simp [filterToKernelPredicate, h1, h2]
  · intro msg hres
    cases hf : findField schema f.key with
    | none => exact Or.inl rfl
    | some fld =>
      cases hp : fld.dataType.asPrimitiveOpt with
      | none => exact Or.inr ⟨fld, rfl, hp⟩
      | some pt =>
        exfalso
        simp only [filterToKernelPredicate, hf, hp] at hres
        obtain ⟨key, value⟩ := f
        cases value <;> simp only at hres
        case Equal raw | NotEqual raw | GreaterThan raw | GreaterThanOrEqual raw
            | LessThan raw | LessThanOrEqual raw =>
          cases hparse : parse pt raw <;>
            simp [hparse, Except.map, Except.mapError] at hres
        case In raws | NotIn raws =>
          cases hm : raws.mapM (parse pt) <;> rw [hm] at hres <;>
            simp [Except.map, Except.mapError] at hres

/-- C7 witness: a missing field and a non-primitive field both rejected,
with the messages evaluated. -/
theorem c7_witness :
    filterToKernelPredicate parseW ⟨"missing", .Equal "x"⟩
      [.mk "k" (.Primitive .String) true] =
      .error (.SchemaMismatch "Field 'missing' is not a root table field.") ∧
    filterToKernelPredicate parseW ⟨"nested", .Equal "x"⟩
      [.mk "nested" (.Struct []) true] =
      .error (.SchemaMismatch "Field 'nested' is not a primitive type") := by
  have h1 := (c7_schema_mismatch_iff parseW ⟨"missing", .Equal "x"⟩
    [StructField.mk "k" (.Primitive .String) true]).1 (by rfl)
  have h2 := (c7_schema_mismatch_iff parseW ⟨"nested", .Equal "x"⟩
    [StructField.mk "nested" (.Struct []) true]).2.1
    (StructField.mk "nested" (.Struct []) true) (by rfl) (by rfl)
  exact ⟨h1, h2⟩

/-- C8: construction validates exhaustively. The triple form succeeds
exactly for a non-empty key and one of the six simple operator strings,
producing the correspondingly named variant, and otherwise fails with
`InvalidPartitionFilter` carrying the (Debug-rendered) input; the list form
recognizes exactly `"in"` and `"not in"`; the Hive path form succeeds
exactly when splitting on `'='` yields two parts (the value part may be
empty), producing the key and a `String` scalar, and otherwise fails with
`PartitionError` carrying the segment. -/
theorem c8_construction_validation :
    (∀ k v : String, k ≠ "" →
      tryFromTriple (k, "=", v) = .ok ⟨k, .Equal v⟩ ∧
      tryFromTriple (k, "!=", v) = .ok ⟨k, .NotEqual v⟩ ∧
      tryFromTriple (k, ">", v) = .ok ⟨k, .GreaterThan v⟩ ∧
      tryFromTriple (k, ">=", v) = .ok ⟨k, .GreaterThanOrEqual v⟩ ∧
      tryFromTriple (k, "<", v) = .ok ⟨k, .LessThan v⟩ ∧
      tryFromTriple (k, "<=", v) = .ok ⟨k, .LessThanOrEqual v⟩) ∧
    (∀ k op v : String,
      k = "" ∨ (op ≠ "=" ∧ op ≠ "!=" ∧ op ≠ ">" ∧ op ≠ ">=" ∧ op ≠ "<" ∧ op ≠ "<=") →
      tryFromTriple (k, op, v) =
        .error (.InvalidPartitionFilter (rustDebugTriple (k, op, v)))) ∧
    (∀ (k : String) (vs : List String), k ≠ "" →
      tryFromListTriple (k, "in", vs) = .ok ⟨k, .In vs⟩ ∧
      tryFromListTriple (k, "not in", vs) = .ok ⟨k, .NotIn vs⟩) ∧
    (∀ (k op : String) (vs : List String), k = "" ∨ (op ≠ "in" ∧ op ≠ "not in") →
      tryFromListTriple (k, op, vs) =
        .error (.InvalidPartitionFilter (rustDebugListTriple (k, op, vs)))) ∧
    (∀ (s k v : String), splitEq s = [k, v] →
      tryFromHivePartition s = .ok ⟨k, .String v⟩) ∧
    (∀ s : String, (splitEq s).length ≠ 2 →
      tryFromHivePartition s = .error (.PartitionError s)) := by
  refine ⟨?_, ?_, ?_, ?_, ?_, ?_⟩
  · intro k v hk
    refine ⟨?_, ?_, ?_, ?_, ?_, ?_⟩ <;> (simp only [tryFromTriple]; rw [if_pos hk]; rfl)
  · intro k op v h
    rcases h with hk | ⟨h1, h2, h3, h4, h5, h6⟩
    · simp only [tryFromTriple]
      rw [if_neg (fun hne => hne hk)]
    · simp only [tryFromTriple]
      by_cases hk : k ≠ ""
      · rw [if_pos hk, if_neg h1, if_neg h2, if_neg h3, if_neg h4, if_neg h5, if_neg h6]
      · rw [if_neg hk]
  · intro k vs hk
    refine ⟨?_, ?_⟩ <;> (simp only [tryFromListTriple]; rw [if_pos hk]; rfl)
  · intro k op vs h
    rcases h with hk | ⟨h1, h2⟩
    · simp only [tryFromListTriple]
      rw [if_neg (fun hne => hne hk)]
    · simp only [tryFromListTriple]
      by_cases hk : k ≠ ""
      · rw [if_pos hk, if_neg h1, if_neg h2]
      · rw [if_neg hk]
  · intro s k v h
    simp only [tryFromHivePartition]
    rw [h]
  · intro s h
    simp only [tryFromHivePartition]
    rcases hs : splitEq s with _ | ⟨a, _ | ⟨b, _ | ⟨c, t⟩⟩⟩
    · rfl
    · rfl
    · exact absurd (by rw [hs]; rfl) h
    · rfl

/-- C8 witness: a valid triple, an unrecognized operator, an empty key, a
valid Hive segment and a malformed one, all evaluated. -/
theorem c8_witness :
    tryFromTriple ("year", "=", "2021") = .ok ⟨"year", .Equal "2021"⟩ ∧
    tryFromTriple ("year", "==", "2021") =
      .error (.InvalidPartitionFilter (rustDebugTriple ("year", "==", "2021"))) ∧
    tryFromTriple ("", "=", "2021") =
      .error (.InvalidPartitionFilter (rustDebugTriple ("", "=", "2021"))) ∧
    tryFromListTriple ("year", "in", ["2020", "2021"]) =
      .ok ⟨"year", .In ["2020", "2021"]⟩ ∧
    tryFromHivePartition "ds=2023-01-01" = .ok ⟨"ds", .String "2023-01-01"⟩ ∧
    tryFromHivePartition "year=2021/month=" =
      .error (.PartitionError "year=2021/month=") := by
  have h := c8_construction_validation
  refine ⟨(h.1 "year" "2021" (by decide)).1,
    h.2.1 "year" "==" "2021" (Or.inr (by refine ⟨?_, ?_, ?_, ?_, ?_, ?_⟩ <;> decide)),
    h.2.1 "" "=" "2021" (Or.inl rfl),
    (h.2.2.1 "year" ["2020", "2021"] (by decide)).1,
    h.2.2.2.2.1 "ds=2023-01-01" "ds" "2023-01-01" (by decide),
    h.2.2.2.2.2 "year=2021/month=" (by decide)⟩

/-- C9: for every non-empty key, serializing the filter constructed from a
valid operator triple reproduces the canonical string of the serializer
table, with the operand single-quoted and unescaped; `In`/`NotIn` render as
`IN`/`NOT IN` lists preserving input order, each element single-quoted. -/
theorem c9_serialize_round_trip (k v : String) (vs : List String) (h : k ≠ "") :
    (tryFromTriple (k, "=", v)).map serializeFilter = .ok (k ++ " = '" ++ v ++ "'") ∧
    (tryFromTriple (k, "!=", v)).map serializeFilter = .ok (k ++ " != '" ++ v ++ "'") ∧
    (tryFromTriple (k, ">", v)).map serializeFilter = .ok (k ++ " > '" ++ v ++ "'") ∧
    (tryFromTriple (k, ">=", v)).map serializeFilter = .ok (k ++ " >= '" ++ v ++ "'") ∧
    (tryFromTriple (k, "<", v)).map serializeFilter = .ok (k ++ " < '" ++ v ++ "'") ∧
    (tryFromTriple (k, "<=", v)).map serializeFilter = .ok (k ++ " <= '" ++ v ++ "'") ∧
    (tryFromListTriple (k, "in", vs)).map serializeFilter =
      .ok (k ++ " IN (" ++ quotedJoin vs ++ ")") ∧
    (tryFromListTriple (k, "not in", vs)).map serializeFilter =
      .ok (k ++ " NOT IN (" ++ quotedJoin vs ++ ")") := by
  refine ⟨?_, ?_, ?_, ?_, ?_, ?_, ?_, ?_⟩ <;>
    first
      | (simp only [tryFromTriple]; rw [if_pos h]; rfl)
      | (simp only [tryFromListTriple]; rw [if_pos h]; rfl)

/-- C9 witness: the round trip evaluated at the source test's inputs. -/
theorem c9_witness :
    (tryFromTriple ("date", "=", "2022-05-22")).map serializeFilter =
      .ok "date = '2022-05-22'" ∧
    (tryFromListTriple ("date", "in", ["2023-11-04", "2023-06-07"])).map serializeFilter =
      .ok "date IN ('2023-11-04', '2023-06-07')" := by
  have h := c9_serialize_round_trip "date" "2022-05-22" ["2023-11-04", "2023-06-07"]
    (by decide)
  refine ⟨?_, ?_⟩
  · rw [h.1]; rfl
  · rw [h.2.2.2.2.2.2.1]; rfl

end DeltaRs
